import Mathlib

/-!
Verification development for the XML core of the refactor_repo parser:
a shallow embedding of `src/tokenizer.rs` (content-mode scanner) and
`src/role_parser.rs` (prolog/DTD role recognizer), with theorems about
the properties the specification states for them.

Byte spans are embedded as `List Nat` (one entry per raw byte).
The scanner's `&[u8]` cursor arithmetic becomes structural list slicing:
`p = &p[1..]` is taking the tail, and returned remainders are the lists
the Rust code would return as the post-token slice.

The `crate::encoding` byte-type table and the `crate::internal`
keyword matcher are not part of the repository snapshot under `src/`;
they are modelled from the specification where marked below.
-/

set_option autoImplicit false

namespace XmlCore

/-- Modelled from the spec: the closed set of byte categories of the
256-entry byte-type table described in spec section 3 (the source's
`crate::encoding` `BT_*` constants, whose defining module is not in the
repository snapshot). -/
inductive BT where
  | nmstrt | name | digit | hex | s | cr | lf | lt | gt | amp | sol | excl | quest
  | lsqb | rsqb | lpar | rpar | percnt | semi | equals | quot | num | comma
  | verbar | minus | other
  deriving DecidableEq, Repr

/-- Modelled from the spec: the fixed byte-to-category mapping (spec section 3,
"a fixed 256-entry mapping from raw byte to a closed set of categories ...
per the XML productions").  ASCII delimiters get their own categories; digits,
hex letters, remaining letters plus `_` and `:` are digit / hex-letter /
name-start; `.` continues a name; everything else is `other`. -/
def byte_type (b : Nat) : BT :=
  if b = 60 then .lt
  else if b = 62 then .gt
  else if b = 38 then .amp
  else if b = 47 then .sol
  else if b = 33 then .excl
  else if b = 63 then .quest
  else if b = 91 then .lsqb
  else if b = 93 then .rsqb
  else if b = 40 then .lpar
  else if b = 41 then .rpar
  else if b = 37 then .percnt
  else if b = 59 then .semi
  else if b = 61 then .equals
  else if b = 34 ∨ b = 39 then .quot
  else if b = 35 then .num
  else if b = 44 then .comma
  else if b = 124 then .verbar
  else if b = 45 then .minus
  else if b = 13 then .cr
  else if b = 10 then .lf
  else if b = 32 ∨ b = 9 then .s
  else if 48 ≤ b ∧ b ≤ 57 then .digit
  else if (97 ≤ b ∧ b ≤ 102) ∨ (65 ≤ b ∧ b ≤ 70) then .hex
  else if (103 ≤ b ∧ b ≤ 122) ∨ (71 ≤ b ∧ b ≤ 90) ∨ b = 95 ∨ b = 58 then .nmstrt
  else if b = 46 then .name
  else .other

/-- The token-kind enumeration `XmlTok` of `src/tokenizer.rs`.  The source
constructors `Partial` and `PartialChar` are here named `Incomplete` and
`IncompleteChar`. -/
inductive XmlTok where
  | TrailingRsqb
  | None
  | TrailingCr
  | IncompleteChar
  | Incomplete
  | Invalid
  | StartTagWithAtts
  | StartTagNoAtts
  | EmptyElementWithAtts
  | EmptyElementNoAtts
  | EndTag
  | DataChars
  | DataNewline
  | CdataSectOpen
  | EntityRef
  | CharRef
  | Pi
  | XmlDecl
  | Comment
  | Bom
  | PrologS
  | DeclOpen
  | DeclClose
  | Name
  | Nmtoken
  | PoundName
  | Or
  | Percent
  | OpenParen
  | CloseParen
  | OpenBracket
  | CloseBracket
  | Literal
  | ParamEntityRef
  | InstanceStart
  | NameQuestion
  | NameAsterisk
  | NamePlus
  | CondSectOpen
  | CondSectClose
  | CloseParenQuestion
  | CloseParenAsterisk
  | CloseParenPlus
  | Comma
  | AttributeValueS
  | CdataSectClose
  | PrefixedName
  | IgnoreSect
  deriving DecidableEq, Repr

/-- The outer and inner loops of `scan_atts` (`src/tokenizer.rs` lines 205-232)
fused into one structural recursion.  The flag is `true` while the source's
inner attribute loop (lines 225-227) is running: that loop consumes bytes until
the head is whitespace (`BT_S`) or `>` (`BT_GT`); on whitespace the outer loop
then skips it, and on `>` the outer loop returns `StartTagWithAtts`, which is
exactly what the `true` branch does directly. -/
def scan_atts_go : Bool → List Nat → XmlTok × List Nat
  | _, [] => (.Incomplete, [])
  | true, b :: p =>
    match byte_type b with
    | .s => scan_atts_go false p
    | .gt => (.StartTagWithAtts, p)
    | _ => scan_atts_go true p
  | false, b :: p =>
    match byte_type b with
    | .s | .cr | .lf => scan_atts_go false p
    | .gt => (.StartTagWithAtts, p)
    | .sol =>
      match p with
      | c :: q => if c = 62 then (.EmptyElementWithAtts, q) else (.Invalid, c :: q)
      | [] => (.Invalid, [])
    | .nmstrt | .hex => scan_atts_go true p
    | _ => (.Invalid, b :: p)

/-- `scan_atts` of `src/tokenizer.rs`: the outer loop entry point. -/
def scan_atts : List Nat → XmlTok × List Nat := scan_atts_go false

/-- `scan_start_tag` of `src/tokenizer.rs`. -/
def scan_start_tag : List Nat → XmlTok × List Nat
  | [] => (.Incomplete, [])
  | b :: p =>
    match byte_type b with
    | .s | .cr | .lf => scan_atts p
    | .gt => (.StartTagNoAtts, p)
    | .sol =>
      match p with
      | c :: q => if c = 62 then (.EmptyElementNoAtts, q) else (.Invalid, c :: q)
      | [] => (.Invalid, [])
    | _ => scan_start_tag p

/-- `scan_end_tag` of `src/tokenizer.rs`. -/
def scan_end_tag : List Nat → XmlTok × List Nat
  | [] => (.Incomplete, [])
  | b :: p =>
    match byte_type b with
    | .s | .cr | .lf => scan_end_tag p
    | .gt => (.EndTag, p)
    | _ => scan_end_tag p

/-- The while loop of `scan_comment` (`src/tokenizer.rs` lines 256-269).
When the loop holds a single `-` as its last byte, the source advances past it
and then executes `p = &p[1..]` on an empty slice, which panics; that case is
`none` here. -/
def comment_loop : List Nat → Option (XmlTok × List Nat)
  | [] => some (.Incomplete, [])
  | b :: p =>
    if b = 45 then
      match p with
      | [] => none
      | c :: q =>
        if c = 45 then
          match q with
          | [] => some (.Invalid, [])
          | d :: r => if d = 62 then some (.Comment, r) else some (.Invalid, d :: r)
        else comment_loop q
    else comment_loop p

/-- `scan_comment` of `src/tokenizer.rs`: requires a leading `-` (the second
`-` of `<!--`) and then runs the comment body loop; without the leading `-`
the source falls through to `Partial` with the cursor unmoved. -/
def scan_comment : List Nat → Option (XmlTok × List Nat)
  | [] => some (.Incomplete, [])
  | b :: p => if b = 45 then comment_loop p else some (.Incomplete, b :: p)

/-- The literal bytes of `b"CDATA["`. -/
def cdataOpenBytes : List Nat := [67, 68, 65, 84, 65, 91]

/-- `scan_cdata_section` of `src/tokenizer.rs`: with fewer than six bytes the
result is `Partial`; with six or more, the first six must equal `CDATA[`. -/
def scan_cdata_section (p : List Nat) : XmlTok × List Nat :=
  if p.length < cdataOpenBytes.length then (.Incomplete, p)
  else if p.take cdataOpenBytes.length = cdataOpenBytes then
    (.CdataSectOpen, p.drop cdataOpenBytes.length)
  else (.Invalid, p)

/-- `scan_pi` of `src/tokenizer.rs`.  As in `scan_comment`, a trailing lone `?`
drives the source into `&p[1..]` on an empty slice, a panic, modelled as
`none`. -/
def scan_pi : List Nat → Option (XmlTok × List Nat)
  | [] => some (.Incomplete, [])
  | b :: p =>
    if b = 63 then
      match p with
      | [] => none
      | c :: q => if c = 62 then some (.Pi, q) else scan_pi q
    else scan_pi p

/-- The entity-name loop of `scan_ref` (`src/tokenizer.rs` lines 314-323). -/
def ref_name_loop : List Nat → XmlTok × List Nat
  | [] => (.Incomplete, [])
  | b :: p =>
    match byte_type b with
    | .semi => (.EntityRef, p)
    | _ => ref_name_loop p

/-- The decimal digit loop of `scan_char_ref` (`src/tokenizer.rs` lines 335-347). -/
def char_ref_loop : List Nat → XmlTok × List Nat
  | [] => (.Incomplete, [])
  | b :: p =>
    match byte_type b with
    | .digit => char_ref_loop p
    | .semi => (.CharRef, p)
    | _ => (.Invalid, b :: p)

/-- `scan_hex_char_ref` of `src/tokenizer.rs`. -/
def scan_hex_char_ref : List Nat → XmlTok × List Nat
  | [] => (.Incomplete, [])
  | b :: p =>
    match byte_type b with
    | .digit | .hex => scan_hex_char_ref p
    | .semi => (.CharRef, p)
    | _ => (.Invalid, b :: p)

/-- `scan_char_ref` of `src/tokenizer.rs`: a leading `x` switches to the hex
form, otherwise the decimal loop runs on the whole slice. -/
def scan_char_ref : List Nat → XmlTok × List Nat
  | [] => char_ref_loop []
  | b :: p => if b = 120 then scan_hex_char_ref p else char_ref_loop (b :: p)

/-- `scan_ref` of `src/tokenizer.rs`. -/
def scan_ref : List Nat → XmlTok × List Nat
  | [] => (.Incomplete, [])
  | b :: p =>
    match byte_type b with
    | .num => scan_char_ref p
    | .nmstrt | .hex => ref_name_loop p
    | _ => (.Invalid, b :: p)

/-- `scan_lt` of `src/tokenizer.rs`. -/
def scan_lt : List Nat → Option (XmlTok × List Nat)
  | [] => some (.Incomplete, [])
  | b :: p =>
    match byte_type b with
    | .nmstrt | .hex => some (scan_start_tag p)
    | .sol => some (scan_end_tag p)
    | .excl =>
      match p with
      | [] => some (.Incomplete, [])
      | c :: q =>
        match byte_type c with
        | .minus => scan_comment q
        | .lsqb => some (scan_cdata_section q)
        | _ => some (.Invalid, c :: q)
    | .quest => scan_pi p
    | _ => some (.Invalid, b :: p)

/-- The maximal data-character run at the bottom of `content_tok`
(`src/tokenizer.rs` lines 123-135). -/
def data_loop : List Nat → XmlTok × List Nat
  | [] => (.DataChars, [])
  | b :: p =>
    match byte_type b with
    | .lt | .amp | .cr | .lf | .rsqb => (.DataChars, b :: p)
    | _ => data_loop p

/-- `content_tok` of `src/tokenizer.rs`.  In the `BT_RSQB` arm the source
executes `p = &p[..p.len() - 1]`, keeping every byte of the post-`]]` slice
except the last one; that slice is reproduced here with `dropLast`.  `none`
marks the panicking comment/PI paths. -/
def content_tok (ptr : List Nat) : Option (XmlTok × List Nat) :=
  match ptr with
  | [] => some (.None, [])
  | b :: p =>
    match byte_type b with
    | .lt => scan_lt p
    | .amp => some (scan_ref p)
    | .cr =>
      some (match p with
        | [] => (.TrailingCr, [])
        | c :: q => if byte_type c = BT.lf then (.DataNewline, q) else (.DataNewline, c :: q))
    | .lf => some (.DataNewline, p)
    | .rsqb =>
      some (match p with
        | [] => (.TrailingRsqb, [])
        | c :: q =>
          if c = 93 then
            match q with
            | [] => (.TrailingRsqb, [])
            | d :: r => if d = 62 then (.Invalid, d :: r) else (.DataChars, (d :: r).dropLast)
          else (.DataChars, c :: q))
    | _ => some (data_loop (b :: p))

/-- The role enumeration `XmlRole` of `src/role_parser.rs`, built without the
`DTD` cargo feature (the `cfg(feature = "DTD")` constructors `TextDecl`,
`IgnoreSect` and `InnerParamEntityRef` are compiled out). -/
inductive XmlRole where
  | Error
  | None
  | XmlDecl
  | InstanceStart
  | DoctypeNone
  | DoctypeName
  | DoctypeSystemId
  | DoctypePublicId
  | DoctypeInternalSubset
  | DoctypeClose
  | GeneralEntityName
  | ParamEntityName
  | EntityNone
  | EntityValue
  | EntitySystemId
  | EntityPublicId
  | EntityComplete
  | EntityNotationName
  | NotationNone
  | NotationName
  | NotationSystemId
  | NotationNoSystemId
  | NotationPublicId
  | AttributeName
  | AttributeTypeCdata
  | AttributeTypeId
  | AttributeTypeIdref
  | AttributeTypeIdrefs
  | AttributeTypeEntity
  | AttributeTypeEntities
  | AttributeTypeNmtoken
  | AttributeTypeNmtokens
  | AttributeEnumValue
  | AttributeNotationValue
  | AttlistNone
  | AttlistElementName
  | ImpliedAttributeValue
  | RequiredAttributeValue
  | DefaultAttributeValue
  | FixedAttributeValue
  | ElementNone
  | ElementName
  | ContentAny
  | ContentEmpty
  | ContentPcdata
  | GroupOpen
  | GroupClose
  | GroupCloseRep
  | GroupCloseOpt
  | GroupClosePlus
  | GroupChoice
  | GroupSequence
  | ContentElement
  | ContentElementRep
  | ContentElementOpt
  | ContentElementPlus
  | Pi
  | Comment
  | ParamEntityRef
  deriving DecidableEq, Repr

/-- The `repr(i32)` discriminant of each `XmlRole` constructor as declared in
`src/role_parser.rs`: `Error = -1`, `None = 0`, and the remaining constructors
numbered consecutively in declaration order. -/
def roleOrdinal : XmlRole → Int
  | .Error => -1
  | .None => 0
  | .XmlDecl => 1
  | .InstanceStart => 2
  | .DoctypeNone => 3
  | .DoctypeName => 4
  | .DoctypeSystemId => 5
  | .DoctypePublicId => 6
  | .DoctypeInternalSubset => 7
  | .DoctypeClose => 8
  | .GeneralEntityName => 9
  | .ParamEntityName => 10
  | .EntityNone => 11
  | .EntityValue => 12
  | .EntitySystemId => 13
  | .EntityPublicId => 14
  | .EntityComplete => 15
  | .EntityNotationName => 16
  | .NotationNone => 17
  | .NotationName => 18
  | .NotationSystemId => 19
  | .NotationNoSystemId => 20
  | .NotationPublicId => 21
  | .AttributeName => 22
  | .AttributeTypeCdata => 23
  | .AttributeTypeId => 24
  | .AttributeTypeIdref => 25
  | .AttributeTypeIdrefs => 26
  | .AttributeTypeEntity => 27
  | .AttributeTypeEntities => 28
  | .AttributeTypeNmtoken => 29
  | .AttributeTypeNmtokens => 30
  | .AttributeEnumValue => 31
  | .AttributeNotationValue => 32
  | .AttlistNone => 33
  | .AttlistElementName => 34
  | .ImpliedAttributeValue => 35
  | .RequiredAttributeValue => 36
  | .DefaultAttributeValue => 37
  | .FixedAttributeValue => 38
  | .ElementNone => 39
  | .ElementName => 40
  | .ContentAny => 41
  | .ContentEmpty => 42
  | .ContentPcdata => 43
  | .GroupOpen => 44
  | .GroupClose => 45
  | .GroupCloseRep => 46
  | .GroupCloseOpt => 47
  | .GroupClosePlus => 48
  | .GroupChoice => 49
  | .GroupSequence => 50
  | .ContentElement => 51
  | .ContentElementRep => 52
  | .ContentElementOpt => 53
  | .ContentElementPlus => 54
  | .Pi => 55
  | .Comment => 56
  | .ParamEntityRef => 57

/-- Modelled from the spec: the encoding descriptor (spec section 3: UTF-8,
UTF-16 little/big-endian, US-ASCII, ISO-8859-1).  The source's `Encoding` type
lives in `crate::xmltok`, which is not in the repository snapshot. -/
inductive Encoding where
  | utf8 | utf16le | utf16be | usAscii | latin1
  deriving DecidableEq, Repr

/-- Modelled from the spec: minimum bytes per character, 2 for the UTF-16
variants and 1 otherwise. -/
def Encoding.min_bytes_per_char : Encoding → Nat
  | .utf16le => 2
  | .utf16be => 2
  | _ => 1

/-- Modelled from the spec: the byte sequence an ASCII keyword occupies in the
given encoding, stepping by `min_bytes_per_char` (spec section 4.3). -/
def encodeAscii (enc : Encoding) (kw : List Nat) : List Nat :=
  match enc with
  | .utf16le => kw.flatMap (fun c => [c, 0])
  | .utf16be => kw.flatMap (fun c => [0, c])
  | _ => kw

/-- Modelled from the spec: the case-sensitive, encoding-aware keyword matcher
`XmlNameMatchesAscii` of `crate::internal` (not in the repository snapshot):
the span matches exactly when it spells the ASCII keyword in the encoding's
unit width. -/
def xmlNameMatchesAscii (enc : Encoding) (span : List Nat) (kw : List Nat) : Bool :=
  span == encodeAscii enc kw

def kwANY : List Nat := [65, 78, 89]
def kwATTLIST : List Nat := [65, 84, 84, 76, 73, 83, 84]
def kwCDATA : List Nat := [67, 68, 65, 84, 65]
def kwDOCTYPE : List Nat := [68, 79, 67, 84, 89, 80, 69]
def kwELEMENT : List Nat := [69, 76, 69, 77, 69, 78, 84]
def kwEMPTY : List Nat := [69, 77, 80, 84, 89]
def kwENTITIES : List Nat := [69, 78, 84, 73, 84, 73, 69, 83]
def kwENTITY : List Nat := [69, 78, 84, 73, 84, 89]
def kwFIXED : List Nat := [70, 73, 88, 69, 68]
def kwID : List Nat := [73, 68]
def kwIDREF : List Nat := [73, 68, 82, 69, 70]
def kwIDREFS : List Nat := [73, 68, 82, 69, 70, 83]
def kwIMPLIED : List Nat := [73, 77, 80, 76, 73, 69, 68]
def kwNDATA : List Nat := [78, 68, 65, 84, 65]
def kwNMTOKEN : List Nat := [78, 77, 84, 79, 75, 69, 78]
def kwNMTOKENS : List Nat := [78, 77, 84, 79, 75, 69, 78, 83]

/-- The `KW_NOTATION` keyword bytes (the Rust constant's name cannot be reused
here). -/
def kwNotationKw : List Nat := [78, 79, 84, 65, 84, 73, 79, 78]

def kwPCDATA : List Nat := [80, 67, 68, 65, 84, 65]
def kwPUBLIC : List Nat := [80, 85, 66, 76, 73, 67]
def kwREQUIRED : List Nat := [82, 69, 81, 85, 73, 82, 69, 68]
def kwSYSTEM : List Nat := [83, 89, 83, 84, 69, 77]

/-- The handler selector: one label per state function of
`src/role_parser.rs`, again without the `DTD` feature (so no
`external_subset0/1` and no `cond_sect0/1/2`).  The source's function-pointer
field becomes this tagged label dispatched by `token_role`.  The constructors
`nota0`..`nota4` stand for the source functions `notation0`..`notation4`,
whose names cannot be reused here. -/
inductive Handler where
  | prolog0 | prolog1 | prolog2
  | doctype0 | doctype1 | doctype2 | doctype3 | doctype4 | doctype5
  | internal_subset
  | entity0 | entity1 | entity2 | entity3 | entity4 | entity5
  | entity6 | entity7 | entity8 | entity9 | entity10
  | nota0 | nota1 | nota2 | nota3 | nota4
  | attlist0 | attlist1 | attlist2 | attlist3 | attlist4
  | attlist5 | attlist6 | attlist7 | attlist8 | attlist9
  | element0 | element1 | element2 | element3 | element4
  | element5 | element6 | element7
  | decl_close | error
  deriving DecidableEq, Repr

/-- The `PrologState` record of `src/role_parser.rs` without the `DTD`-feature
fields: handler selector, content-model nesting level, and the role to return
for whitespace in `decl_close`. -/
structure PrologState where
  handler : Handler
  level : Nat
  role_none : XmlRole
  deriving DecidableEq, Repr

/-- `PrologState::new()`. -/
def PrologState.new : PrologState :=
  { handler := .prolog0, level := 0, role_none := XmlRole.None }

/-- `common` of `src/role_parser.rs` (non-`DTD` build): rewrite the handler to
the permanent sink and report `Error`. -/
def common (s : PrologState) (_tok : XmlTok) : XmlRole × PrologState :=
  (XmlRole.Error, { s with handler := .error })

/-- `set_top_level` of `src/role_parser.rs` (non-`DTD` build). -/
def set_top_level (s : PrologState) : PrologState :=
  { s with handler := .internal_subset }

/-- `prolog0` of `src/role_parser.rs`. -/
def prolog0 (s : PrologState) (tok : XmlTok) (span : List Nat) (enc : Encoding) :
    XmlRole × PrologState :=
  match tok with
  | .PrologS => (XmlRole.None, { s with handler := .prolog1 })
  | .XmlDecl => (.XmlDecl, { s with handler := .prolog1 })
  | .Pi => (.Pi, { s with handler := .prolog1 })
  | .Comment => (.Comment, { s with handler := .prolog1 })
  | .Bom => (XmlRole.None, s)
  | .DeclOpen =>
    if xmlNameMatchesAscii enc (span.drop (2 * enc.min_bytes_per_char)) kwDOCTYPE then
      (.DoctypeNone, { s with handler := .doctype0 })
    else common s tok
  | .InstanceStart => (.InstanceStart, { s with handler := .error })
  | _ => common s tok

/-- `prolog1` of `src/role_parser.rs`. -/
def prolog1 (s : PrologState) (tok : XmlTok) (span : List Nat) (enc : Encoding) :
    XmlRole × PrologState :=
  match tok with
  | .PrologS => (XmlRole.None, s)
  | .Pi => (.Pi, s)
  | .Comment => (.Comment, s)
  | .Bom => (XmlRole.None, s)
  | .DeclOpen =>
    if xmlNameMatchesAscii enc (span.drop (2 * enc.min_bytes_per_char)) kwDOCTYPE then
      (.DoctypeNone, { s with handler := .doctype0 })
    else common s tok
  | .InstanceStart => (.InstanceStart, { s with handler := .error })
  | _ => common s tok

/-- `prolog2` of `src/role_parser.rs`. -/
def prolog2 (s : PrologState) (tok : XmlTok) (_span : List Nat) (_enc : Encoding) :
    XmlRole × PrologState :=
  match tok with
  | .PrologS => (XmlRole.None, s)
  | .Pi => (.Pi, s)
  | .Comment => (.Comment, s)
  | .InstanceStart => (.InstanceStart, { s with handler := .error })
  | _ => common s tok

/-- `doctype0` of `src/role_parser.rs`. -/
def doctype0 (s : PrologState) (tok : XmlTok) (_span : List Nat) (_enc : Encoding) :
    XmlRole × PrologState :=
  match tok with
  | .PrologS => (.DoctypeNone, s)
  | .Name | .PrefixedName => (.DoctypeName, { s with handler := .doctype1 })
  | _ => common s tok

/-- `doctype1` of `src/role_parser.rs`. -/
def doctype1 (s : PrologState) (tok : XmlTok) (span : List Nat) (enc : Encoding) :
    XmlRole × PrologState :=
  match tok with
  | .PrologS => (.DoctypeNone, s)
  | .OpenBracket => (.DoctypeInternalSubset, { s with handler := .internal_subset })
  | .DeclClose => (.DoctypeClose, { s with handler := .prolog2 })
  | .Name =>
    if xmlNameMatchesAscii enc span kwSYSTEM then
      (.DoctypeNone, { s with handler := .doctype3 })
    else if xmlNameMatchesAscii enc span kwPUBLIC then
      (.DoctypeNone, { s with handler := .doctype2 })
    else common s tok
  | _ => common s tok

/-- `doctype2` of `src/role_parser.rs`. -/
def doctype2 (s : PrologState) (tok : XmlTok) (_span : List Nat) (_enc : Encoding) :
    XmlRole × PrologState :=
  match tok with
  | .PrologS => (.DoctypeNone, s)
  | .Literal => (.DoctypePublicId, { s with handler := .doctype3 })
  | _ => common s tok

/-- `doctype3` of `src/role_parser.rs`. -/
def doctype3 (s : PrologState) (tok : XmlTok) (_span : List Nat) (_enc : Encoding) :
    XmlRole × PrologState :=
  match tok with
  | .PrologS => (.DoctypeNone, s)
  | .Literal => (.DoctypeSystemId, { s with handler := .doctype4 })
  | _ => common s tok

/-- `doctype4` of `src/role_parser.rs`. -/
def doctype4 (s : PrologState) (tok : XmlTok) (_span : List Nat) (_enc : Encoding) :
    XmlRole × PrologState :=
  match tok with
  | .PrologS => (.DoctypeNone, s)
  | .OpenBracket => (.DoctypeInternalSubset, { s with handler := .internal_subset })
  | .DeclClose => (.DoctypeClose, { s with handler := .prolog2 })
  | _ => common s tok

/-- `doctype5` of `src/role_parser.rs`. -/
def doctype5 (s : PrologState) (tok : XmlTok) (_span : List Nat) (_enc : Encoding) :
    XmlRole × PrologState :=
  match tok with
  | .PrologS => (.DoctypeNone, s)
  | .DeclClose => (.DoctypeClose, { s with handler := .prolog2 })
  | _ => common s tok

/-- `internal_subset` of `src/role_parser.rs`. -/
def internal_subset (s : PrologState) (tok : XmlTok) (span : List Nat) (enc : Encoding) :
    XmlRole × PrologState :=
  match tok with
  | .PrologS => (XmlRole.None, s)
  | .DeclOpen =>
    let name := span.drop (2 * enc.min_bytes_per_char)
    if xmlNameMatchesAscii enc name kwENTITY then
      (.EntityNone, { s with handler := .entity0 })
    else if xmlNameMatchesAscii enc name kwATTLIST then
      (.AttlistNone, { s with handler := .attlist0 })
    else if xmlNameMatchesAscii enc name kwELEMENT then
      (.ElementNone, { s with handler := .element0 })
    else if xmlNameMatchesAscii enc name kwNotationKw then
      (.NotationNone, { s with handler := .nota0 })
    else common s tok
  | .Pi => (.Pi, s)
  | .Comment => (.Comment, s)
  | .ParamEntityRef => (.ParamEntityRef, s)
  | .CloseBracket => (.DoctypeNone, { s with handler := .doctype5 })
  | .None => (XmlRole.None, s)
  | _ => common s tok

/-- `entity0` of `src/role_parser.rs`. -/
def entity0 (s : PrologState) (tok : XmlTok) (_span : List Nat) (_enc : Encoding) :
    XmlRole × PrologState :=
  match tok with
  | .PrologS => (.EntityNone, s)
  | .Percent => (.EntityNone, { s with handler := .entity1 })
  | .Name => (.GeneralEntityName, { s with handler := .entity2 })
  | _ => common s tok

/-- `entity1` of `src/role_parser.rs`. -/
def entity1 (s : PrologState) (tok : XmlTok) (_span : List Nat) (_enc : Encoding) :
    XmlRole × PrologState :=
  match tok with
  | .PrologS => (.EntityNone, s)
  | .Name => (.ParamEntityName, { s with handler := .entity7 })
  | _ => common s tok

/-- `entity2` of `src/role_parser.rs`. -/
def entity2 (s : PrologState) (tok : XmlTok) (span : List Nat) (enc : Encoding) :
    XmlRole × PrologState :=
  match tok with
  | .PrologS => (.EntityNone, s)
  | .Name =>
    if xmlNameMatchesAscii enc span kwSYSTEM then
      (.EntityNone, { s with handler := .entity4 })
    else if xmlNameMatchesAscii enc span kwPUBLIC then
      (.EntityNone, { s with handler := .entity3 })
    else common s tok
  | .Literal =>
    (.EntityValue, { s with handler := .decl_close, role_none := XmlRole.EntityNone })
  | _ => common s tok

/-- `entity3` of `src/role_parser.rs`. -/
def entity3 (s : PrologState) (tok : XmlTok) (_span : List Nat) (_enc : Encoding) :
    XmlRole × PrologState :=
  match tok with
  | .PrologS => (.EntityNone, s)
  | .Literal => (.EntityPublicId, { s with handler := .entity4 })
  | _ => common s tok

/-- `entity4` of `src/role_parser.rs`. -/
def entity4 (s : PrologState) (tok : XmlTok) (_span : List Nat) (_enc : Encoding) :
    XmlRole × PrologState :=
  match tok with
  | .PrologS => (.EntityNone, s)
  | .Literal => (.EntitySystemId, { s with handler := .entity5 })
  | _ => common s tok

/-- `entity5` of `src/role_parser.rs`. -/
def entity5 (s : PrologState) (tok : XmlTok) (span : List Nat) (enc : Encoding) :
    XmlRole × PrologState :=
  match tok with
  | .PrologS => (.EntityNone, s)
  | .DeclClose => (.EntityComplete, set_top_level s)
  | .Name =>
    if xmlNameMatchesAscii enc span kwNDATA then
      (.EntityNone, { s with handler := .entity6 })
    else common s tok
  | _ => common s tok

/-- `entity6` of `src/role_parser.rs`. -/
def entity6 (s : PrologState) (tok : XmlTok) (_span : List Nat) (_enc : Encoding) :
    XmlRole × PrologState :=
  match tok with
  | .PrologS => (.EntityNone, s)
  | .Name =>
    (.EntityNotationName, { s with handler := .decl_close, role_none := XmlRole.EntityNone })
  | _ => common s tok

/-- `entity7` of `src/role_parser.rs`. -/
def entity7 (s : PrologState) (tok : XmlTok) (span : List Nat) (enc : Encoding) :
    XmlRole × PrologState :=
  match tok with
  | .PrologS => (.EntityNone, s)
  | .Name =>
    if xmlNameMatchesAscii enc span kwSYSTEM then
      (.EntityNone, { s with handler := .entity9 })
    else if xmlNameMatchesAscii enc span kwPUBLIC then
      (.EntityNone, { s with handler := .entity8 })
    else common s tok
  | .Literal =>
    (.EntityValue, { s with handler := .decl_close, role_none := XmlRole.EntityNone })
  | _ => common s tok

/-- `entity8` of `src/role_parser.rs`. -/
def entity8 (s : PrologState) (tok : XmlTok) (_span : List Nat) (_enc : Encoding) :
    XmlRole × PrologState :=
  match tok with
  | .PrologS => (.EntityNone, s)
  | .Literal => (.EntityPublicId, { s with handler := .entity9 })
  | _ => common s tok

/-- `entity9` of `src/role_parser.rs`. -/
def entity9 (s : PrologState) (tok : XmlTok) (_span : List Nat) (_enc : Encoding) :
    XmlRole × PrologState :=
  match tok with
  | .PrologS => (.EntityNone, s)
  | .Literal => (.EntitySystemId, { s with handler := .entity10 })
  | _ => common s tok

/-- `entity10` of `src/role_parser.rs`. -/
def entity10 (s : PrologState) (tok : XmlTok) (_span : List Nat) (_enc : Encoding) :
    XmlRole × PrologState :=
  match tok with
  | .PrologS => (.EntityNone, s)
  | .DeclClose => (.EntityComplete, set_top_level s)
  | _ => common s tok

/-- The source state function `notation0` of `src/role_parser.rs`. -/
def nota0 (s : PrologState) (tok : XmlTok) (_span : List Nat) (_enc : Encoding) :
    XmlRole × PrologState :=
  match tok with
  | .PrologS => (.NotationNone, s)
  | .Name => (.NotationName, { s with handler := .nota1 })
  | _ => common s tok

/-- The source state function `notation1` of `src/role_parser.rs`. -/
def nota1 (s : PrologState) (tok : XmlTok) (span : List Nat) (enc : Encoding) :
    XmlRole × PrologState :=
  match tok with
  | .PrologS => (.NotationNone, s)
  | .Name =>
    if xmlNameMatchesAscii enc span kwSYSTEM then
      (.NotationNone, { s with handler := .nota3 })
    else if xmlNameMatchesAscii enc span kwPUBLIC then
      (.NotationNone, { s with handler := .nota2 })
    else common s tok
  | _ => common s tok

/-- The source state function `notation2` of `src/role_parser.rs`. -/
def nota2 (s : PrologState) (tok : XmlTok) (_span : List Nat) (_enc : Encoding) :
    XmlRole × PrologState :=
  match tok with
  | .PrologS => (.NotationNone, s)
  | .Literal => (.NotationPublicId, { s with handler := .nota4 })
  | _ => common s tok

/-- The source state function `notation3` of `src/role_parser.rs`. -/
def nota3 (s : PrologState) (tok : XmlTok) (_span : List Nat) (_enc : Encoding) :
    XmlRole × PrologState :=
  match tok with
  | .PrologS => (.NotationNone, s)
  | .Literal =>
    (.NotationSystemId, { s with handler := .decl_close, role_none := XmlRole.NotationNone })
  | _ => common s tok

/-- The source state function `notation4` of `src/role_parser.rs`. -/
def nota4 (s : PrologState) (tok : XmlTok) (_span : List Nat) (_enc : Encoding) :
    XmlRole × PrologState :=
  match tok with
  | .PrologS => (.NotationNone, s)
  | .Literal =>
    (.NotationSystemId, { s with handler := .decl_close, role_none := XmlRole.NotationNone })
  | .DeclClose => (.NotationNoSystemId, set_top_level s)
  | _ => common s tok

/-- `attlist0` of `src/role_parser.rs`. -/
def attlist0 (s : PrologState) (tok : XmlTok) (_span : List Nat) (_enc : Encoding) :
    XmlRole × PrologState :=
  match tok with
  | .PrologS => (.AttlistNone, s)
  | .Name | .PrefixedName => (.AttlistElementName, { s with handler := .attlist1 })
  | _ => common s tok

/-- `attlist1` of `src/role_parser.rs`. -/
def attlist1 (s : PrologState) (tok : XmlTok) (_span : List Nat) (_enc : Encoding) :
    XmlRole × PrologState :=
  match tok with
  | .PrologS => (.AttlistNone, s)
  | .DeclClose => (.AttlistNone, set_top_level s)
  | .Name | .PrefixedName => (.AttributeName, { s with handler := .attlist2 })
  | _ => common s tok

/-- `attlist2` of `src/role_parser.rs`.  The source's `for` loop over the
`TYPES` array `[CDATA, ID, IDREF, IDREFS, ENTITY, ENTITIES, NMTOKEN,
NMTOKENS]` with `transmute(AttributeTypeCdata as i32 + i)` is unrolled here in
the same order; the theorem `c6_attlist_type_indexing` checks that the
written-out roles are exactly the discriminants `AttributeTypeCdata + i`. -/
def attlist2 (s : PrologState) (tok : XmlTok) (span : List Nat) (enc : Encoding) :
    XmlRole × PrologState :=
  match tok with
  | .PrologS => (.AttlistNone, s)
  | .Name =>
    if xmlNameMatchesAscii enc span kwCDATA then
      (.AttributeTypeCdata, { s with handler := .attlist8 })
    else if xmlNameMatchesAscii enc span kwID then
      (.AttributeTypeId, { s with handler := .attlist8 })
    else if xmlNameMatchesAscii enc span kwIDREF then
      (.AttributeTypeIdref, { s with handler := .attlist8 })
    else if xmlNameMatchesAscii enc span kwIDREFS then
      (.AttributeTypeIdrefs, { s with handler := .attlist8 })
    else if xmlNameMatchesAscii enc span kwENTITY then
      (.AttributeTypeEntity, { s with handler := .attlist8 })
    else if xmlNameMatchesAscii enc span kwENTITIES then
      (.AttributeTypeEntities, { s with handler := .attlist8 })
    else if xmlNameMatchesAscii enc span kwNMTOKEN then
      (.AttributeTypeNmtoken, { s with handler := .attlist8 })
    else if xmlNameMatchesAscii enc span kwNMTOKENS then
      (.AttributeTypeNmtokens, { s with handler := .attlist8 })
    else if xmlNameMatchesAscii enc span kwNotationKw then
      (.AttlistNone, { s with handler := .attlist5 })
    else common s tok
  | .OpenParen => (.AttlistNone, { s with handler := .attlist3 })
  | _ => common s tok

/-- `attlist3` of `src/role_parser.rs`. -/
def attlist3 (s : PrologState) (tok : XmlTok) (_span : List Nat) (_enc : Encoding) :
    XmlRole × PrologState :=
  match tok with
  | .PrologS => (.AttlistNone, s)
  | .Nmtoken | .Name | .PrefixedName => (.AttributeEnumValue, { s with handler := .attlist4 })
  | _ => common s tok

/-- `attlist4` of `src/role_parser.rs`. -/
def attlist4 (s : PrologState) (tok : XmlTok) (_span : List Nat) (_enc : Encoding) :
    XmlRole × PrologState :=
  match tok with
  | .PrologS => (.AttlistNone, s)
  | .CloseParen => (.AttlistNone, { s with handler := .attlist8 })
  | .Or => (.AttlistNone, { s with handler := .attlist3 })
  | _ => common s tok

/-- `attlist5` of `src/role_parser.rs`. -/
def attlist5 (s : PrologState) (tok : XmlTok) (_span : List Nat) (_enc : Encoding) :
    XmlRole × PrologState :=
  match tok with
  | .PrologS => (.AttlistNone, s)
  | .OpenParen => (.AttlistNone, { s with handler := .attlist6 })
  | _ => common s tok

/-- `attlist6` of `src/role_parser.rs`. -/
def attlist6 (s : PrologState) (tok : XmlTok) (_span : List Nat) (_enc : Encoding) :
    XmlRole × PrologState :=
  match tok with
  | .PrologS => (.AttlistNone, s)
  | .Name => (.AttributeNotationValue, { s with handler := .attlist7 })
  | _ => common s tok

/-- `attlist7` of `src/role_parser.rs`. -/
def attlist7 (s : PrologState) (tok : XmlTok) (_span : List Nat) (_enc : Encoding) :
    XmlRole × PrologState :=
  match tok with
  | .PrologS => (.AttlistNone, s)
  | .CloseParen => (.AttlistNone, { s with handler := .attlist8 })
  | .Or => (.AttlistNone, { s with handler := .attlist6 })
  | _ => common s tok

/-- `attlist8` of `src/role_parser.rs`. -/
def attlist8 (s : PrologState) (tok : XmlTok) (span : List Nat) (enc : Encoding) :
    XmlRole × PrologState :=
  match tok with
  | .PrologS => (.AttlistNone, s)
  | .PoundName =>
    let name := span.drop enc.min_bytes_per_char
    if xmlNameMatchesAscii enc name kwIMPLIED then
      (.ImpliedAttributeValue, { s with handler := .attlist1 })
    else if xmlNameMatchesAscii enc name kwREQUIRED then
      (.RequiredAttributeValue, { s with handler := .attlist1 })
    else if xmlNameMatchesAscii enc name kwFIXED then
      (.AttlistNone, { s with handler := .attlist9 })
    else common s tok
  | .Literal => (.DefaultAttributeValue, { s with handler := .attlist1 })
  | _ => common s tok

/-- `attlist9` of `src/role_parser.rs`. -/
def attlist9 (s : PrologState) (tok : XmlTok) (_span : List Nat) (_enc : Encoding) :
    XmlRole × PrologState :=
  match tok with
  | .PrologS => (.AttlistNone, s)
  | .Literal => (.FixedAttributeValue, { s with handler := .attlist1 })
  | _ => common s tok

/-- `element0` of `src/role_parser.rs`. -/
def element0 (s : PrologState) (tok : XmlTok) (_span : List Nat) (_enc : Encoding) :
    XmlRole × PrologState :=
  match tok with
  | .PrologS => (.ElementNone, s)
  | .Name | .PrefixedName => (.ElementName, { s with handler := .element1 })
  | _ => common s tok

/-- `element1` of `src/role_parser.rs`. -/
def element1 (s : PrologState) (tok : XmlTok) (span : List Nat) (enc : Encoding) :
    XmlRole × PrologState :=
  match tok with
  | .PrologS => (.ElementNone, s)
  | .Name =>
    if xmlNameMatchesAscii enc span kwEMPTY then
      (.ContentEmpty, { s with handler := .decl_close, role_none := XmlRole.ElementNone })
    else if xmlNameMatchesAscii enc span kwANY then
      (.ContentAny, { s with handler := .decl_close, role_none := XmlRole.ElementNone })
    else common s tok
  | .OpenParen => (.GroupOpen, { s with handler := .element2, level := 1 })
  | _ => common s tok

/-- `element2` of `src/role_parser.rs`. -/
def element2 (s : PrologState) (tok : XmlTok) (span : List Nat) (enc : Encoding) :
    XmlRole × PrologState :=
  match tok with
  | .PrologS => (.ElementNone, s)
  | .PoundName =>
    if xmlNameMatchesAscii enc (span.drop enc.min_bytes_per_char) kwPCDATA then
      (.ContentPcdata, { s with handler := .element3 })
    else common s tok
  | .OpenParen => (.GroupOpen, { s with level := 2, handler := .element6 })
  | .Name | .PrefixedName => (.ContentElement, { s with handler := .element7 })
  | .NameQuestion => (.ContentElementOpt, { s with handler := .element7 })
  | .NameAsterisk => (.ContentElementRep, { s with handler := .element7 })
  | .NamePlus => (.ContentElementPlus, { s with handler := .element7 })
  | _ => common s tok

/-- `element3` of `src/role_parser.rs`. -/
def element3 (s : PrologState) (tok : XmlTok) (_span : List Nat) (_enc : Encoding) :
    XmlRole × PrologState :=
  match tok with
  | .PrologS => (.ElementNone, s)
  | .CloseParen =>
    (.GroupClose, { s with handler := .decl_close, role_none := XmlRole.ElementNone })
  | .CloseParenAsterisk =>
    (.GroupCloseRep, { s with handler := .decl_close, role_none := XmlRole.ElementNone })
  | .Or => (.ElementNone, { s with handler := .element4 })
  | _ => common s tok

/-- `element4` of `src/role_parser.rs`. -/
def element4 (s : PrologState) (tok : XmlTok) (_span : List Nat) (_enc : Encoding) :
    XmlRole × PrologState :=
  match tok with
  | .PrologS => (.ElementNone, s)
  | .Name | .PrefixedName => (.ContentElement, { s with handler := .element5 })
  | _ => common s tok

/-- `element5` of `src/role_parser.rs`. -/
def element5 (s : PrologState) (tok : XmlTok) (_span : List Nat) (_enc : Encoding) :
    XmlRole × PrologState :=
  match tok with
  | .PrologS => (.ElementNone, s)
  | .CloseParenAsterisk =>
    (.GroupCloseRep, { s with handler := .decl_close, role_none := XmlRole.ElementNone })
  | .Or => (.ElementNone, { s with handler := .element4 })
  | _ => common s tok

/-- `element6` of `src/role_parser.rs`. -/
def element6 (s : PrologState) (tok : XmlTok) (_span : List Nat) (_enc : Encoding) :
    XmlRole × PrologState :=
  match tok with
  | .PrologS => (.ElementNone, s)
  | .OpenParen => (.GroupOpen, { s with level := s.level + 1 })
  | .Name | .PrefixedName => (.ContentElement, { s with handler := .element7 })
  | .NameQuestion => (.ContentElementOpt, { s with handler := .element7 })
  | .NameAsterisk => (.ContentElementRep, { s with handler := .element7 })
  | .NamePlus => (.ContentElementPlus, { s with handler := .element7 })
  | _ => common s tok

/-- The close-paren bookkeeping shared by the four close arms of `element7`:
`state.level -= 1` and, at zero, the move to `decl_close` with
`role_none = ElementNone`. -/
def element7close (s : PrologState) : PrologState :=
  let l := s.level - 1
  if l = 0 then { s with level := l, handler := .decl_close, role_none := XmlRole.ElementNone }
  else { s with level := l }

/-- `element7` of `src/role_parser.rs`. -/
def element7 (s : PrologState) (tok : XmlTok) (_span : List Nat) (_enc : Encoding) :
    XmlRole × PrologState :=
  match tok with
  | .PrologS => (.ElementNone, s)
  | .CloseParen => (.GroupClose, element7close s)
  | .CloseParenAsterisk => (.GroupCloseRep, element7close s)
  | .CloseParenQuestion => (.GroupCloseOpt, element7close s)
  | .CloseParenPlus => (.GroupClosePlus, element7close s)
  | .Comma => (.GroupSequence, { s with handler := .element6 })
  | .Or => (.GroupChoice, { s with handler := .element6 })
  | _ => common s tok

/-- `decl_close` of `src/role_parser.rs`. -/
def decl_close (s : PrologState) (tok : XmlTok) (_span : List Nat) (_enc : Encoding) :
    XmlRole × PrologState :=
  match tok with
  | .PrologS => (s.role_none, s)
  | .DeclClose => (s.role_none, set_top_level s)
  | _ => common s tok

/-- The sink state function `error` of `src/role_parser.rs`: always `None`,
never a transition. -/
def error (s : PrologState) (_tok : XmlTok) (_span : List Nat) (_enc : Encoding) :
    XmlRole × PrologState :=
  (XmlRole.None, s)

/-- `PrologState::token_role`: dispatch on the handler selector, exactly the
source's `(self.handler)(self, tok, ptr, end, enc)` indirect call. -/
def token_role (s : PrologState) (tok : XmlTok) (span : List Nat) (enc : Encoding) :
    XmlRole × PrologState :=
  match s.handler with
  | .prolog0 => prolog0 s tok span enc
  | .prolog1 => prolog1 s tok span enc
  | .prolog2 => prolog2 s tok span enc
  | .doctype0 => doctype0 s tok span enc
  | .doctype1 => doctype1 s tok span enc
  | .doctype2 => doctype2 s tok span enc
  | .doctype3 => doctype3 s tok span enc
  | .doctype4 => doctype4 s tok span enc
  | .doctype5 => doctype5 s tok span enc
  | .internal_subset => internal_subset s tok span enc
  | .entity0 => entity0 s tok span enc
  | .entity1 => entity1 s tok span enc
  | .entity2 => entity2 s tok span enc
  | .entity3 => entity3 s tok span enc
  | .entity4 => entity4 s tok span enc
  | .entity5 => entity5 s tok span enc
  | .entity6 => entity6 s tok span enc
  | .entity7 => entity7 s tok span enc
  | .entity8 => entity8 s tok span enc
  | .entity9 => entity9 s tok span enc
  | .entity10 => entity10 s tok span enc
  | .nota0 => nota0 s tok span enc
  | .nota1 => nota1 s tok span enc
  | .nota2 => nota2 s tok span enc
  | .nota3 => nota3 s tok span enc
  | .nota4 => nota4 s tok span enc
  | .attlist0 => attlist0 s tok span enc
  | .attlist1 => attlist1 s tok span enc
  | .attlist2 => attlist2 s tok span enc
  | .attlist3 => attlist3 s tok span enc
  | .attlist4 => attlist4 s tok span enc
  | .attlist5 => attlist5 s tok span enc
  | .attlist6 => attlist6 s tok span enc
  | .attlist7 => attlist7 s tok span enc
  | .attlist8 => attlist8 s tok span enc
  | .attlist9 => attlist9 s tok span enc
  | .element0 => element0 s tok span enc
  | .element1 => element1 s tok span enc
  | .element2 => element2 s tok span enc
  | .element3 => element3 s tok span enc
  | .element4 => element4 s tok span enc
  | .element5 => element5 s tok span enc
  | .element6 => element6 s tok span enc
  | .element7 => element7 s tok span enc
  | .decl_close => decl_close s tok span enc
  | .error => error s tok span enc

/-- One driver input: a token kind, its byte span, and the encoding record
handed to `token_role` for that call. -/
abbrev RInput := XmlTok × List Nat × Encoding

/-- Iterate `token_role` over a list of driver inputs, returning the final
state. -/
def runRole : PrologState → List RInput → PrologState
  | s, [] => s
  | s, i :: rest => runRole (token_role s i.1 i.2.1 i.2.2).2 rest

/-- Iterate `token_role` over a list of driver inputs, collecting the emitted
roles in order. -/
def runRoles : PrologState → List RInput → List XmlRole
  | _, [] => []
  | s, i :: rest =>
    (token_role s i.1 i.2.1 i.2.2).1 :: runRoles (token_role s i.1 i.2.1 i.2.2).2 rest

example : content_tok [38, 35, 59] = some (.CharRef, []) := by decide
example : content_tok [38, 35, 120, 59] = some (.CharRef, []) := by decide
example : content_tok [93, 93, 97, 98] = some (.DataChars, [97]) := by decide
example : content_tok [60, 97, 32, 120, 61, 34, 49, 34, 47, 62]
    = some (.StartTagWithAtts, []) := by decide
example : content_tok [60, 97, 32, 120, 61, 34, 49, 34, 32, 47, 62]
    = some (.EmptyElementWithAtts, []) := by decide
example : content_tok [60, 33, 91, 90] = some (.Incomplete, [90]) := by decide
example : content_tok [60, 33, 45, 45, 45, 45, 62] = some (.Comment, []) := by decide
example : content_tok [60] = some (.Incomplete, []) := by decide
example : content_tok [93, 93, 62] = some (.Invalid, [62]) := by decide

/-- The reachability invariant of the role recognizer: inside the mixed-content
states `element2`..`element5` the level is exactly 1, inside the group states
`element6`/`element7` it is at least 1, and `role_none` is always one of the
four values the source ever assigns to it. -/
def StInv (s : PrologState) : Prop :=
  ((s.handler = .element2 ∨ s.handler = .element3 ∨ s.handler = .element4 ∨
      s.handler = .element5) → s.level = 1)
  ∧ ((s.handler = .element6 ∨ s.handler = .element7) → 1 ≤ s.level)
  ∧ (s.role_none = XmlRole.None ∨ s.role_none = .EntityNone ∨
      s.role_none = .NotationNone ∨ s.role_none = .ElementNone)

set_option maxHeartbeats 1600000 in
theorem err_step (s : PrologState) (tok : XmlTok) (span : List Nat) (enc : Encoding)
    (hrn : s.role_none ≠ XmlRole.Error) :
    (token_role s tok span enc).1 = XmlRole.Error →
    (token_role s tok span enc).2 = { s with handler := Handler.error } := by
  obtain ⟨h, l, rn⟩ := s
  cases h <;>
    simp only [token_role.eq_def, prolog0.eq_def, prolog1.eq_def, prolog2.eq_def,
      doctype0.eq_def, doctype1.eq_def, doctype2.eq_def, doctype3.eq_def, doctype4.eq_def,
      doctype5.eq_def, internal_subset.eq_def, entity0.eq_def, entity1.eq_def,
      entity2.eq_def, entity3.eq_def, entity4.eq_def, entity5.eq_def, entity6.eq_def,
      entity7.eq_def, entity8.eq_def, entity9.eq_def, entity10.eq_def, nota0.eq_def,
      nota1.eq_def, nota2.eq_def, nota3.eq_def, nota4.eq_def, attlist0.eq_def,
      attlist1.eq_def, attlist2.eq_def, attlist3.eq_def, attlist4.eq_def, attlist5.eq_def,
      attlist6.eq_def, attlist7.eq_def, attlist8.eq_def, attlist9.eq_def, element0.eq_def,
      element1.eq_def, element2.eq_def, element3.eq_def, element4.eq_def, element5.eq_def,
      element6.eq_def, element7.eq_def, decl_close.eq_def, error, common, set_top_level,
      element7close] <;>
    (try split) <;> (try split_ifs) <;> intro hE <;>
    first
      | rfl
      | exact XmlRole.noConfusion hE
      | exact hE.elim
      | exact absurd hE hrn

set_option maxHeartbeats 1600000 in
theorem inv_step (s : PrologState) (tok : XmlTok) (span : List Nat) (enc : Encoding)
    (hInv : StInv s) : StInv (token_role s tok span enc).2 := by
  obtain ⟨h, l, rn⟩ := s
  cases h <;>
    simp only [token_role.eq_def, prolog0.eq_def, prolog1.eq_def, prolog2.eq_def,
      doctype0.eq_def, doctype1.eq_def, doctype2.eq_def, doctype3.eq_def, doctype4.eq_def,
      doctype5.eq_def, internal_subset.eq_def, entity0.eq_def, entity1.eq_def,
      entity2.eq_def, entity3.eq_def, entity4.eq_def, entity5.eq_def, entity6.eq_def,
      entity7.eq_def, entity8.eq_def, entity9.eq_def, entity10.eq_def, nota0.eq_def,
      nota1.eq_def, nota2.eq_def, nota3.eq_def, nota4.eq_def, attlist0.eq_def,
      attlist1.eq_def, attlist2.eq_def, attlist3.eq_def, attlist4.eq_def, attlist5.eq_def,
      attlist6.eq_def, attlist7.eq_def, attlist8.eq_def, attlist9.eq_def, element0.eq_def,
      element1.eq_def, element2.eq_def, element3.eq_def, element4.eq_def, element5.eq_def,
      element6.eq_def, element7.eq_def, decl_close.eq_def, error, common, set_top_level,
      element7close] <;>
    (try split) <;> (try split_ifs) <;>
    (try simp_all [StInv]) <;> (try omega)

theorem stinv_new : StInv PrologState.new := by
  refine ⟨?_, ?_, ?_⟩ <;> simp [PrologState.new, StInv]

theorem runRole_stinv (ins : List RInput) :
    ∀ s : PrologState, StInv s → StInv (runRole s ins) := by
  induction ins with
  | nil => intro s h; exact h
  | cons i rest ih => intro s h; exact ih _ (inv_step s i.1 i.2.1 i.2.2 h)

/-- Every state reachable from `PrologState::new()` by `token_role` calls
satisfies the invariant `StInv`. -/
theorem reach_inv (ins : List RInput) : StInv (runRole PrologState.new ins) :=
  runRole_stinv ins PrologState.new stinv_new

theorem error_step (s : PrologState) (tok : XmlTok) (span : List Nat) (enc : Encoding)
    (hs : s.handler = Handler.error) : token_role s tok span enc = (XmlRole.None, s) := by
  obtain ⟨h, l, rn⟩ := s
  have hh : h = Handler.error := hs
  subst hh
  rfl

theorem error_run (s : PrologState) (hs : s.handler = Handler.error) :
    ∀ ins : List RInput,
      runRole s ins = s ∧ runRoles s ins = List.replicate ins.length XmlRole.None := by
  intro ins
  induction ins with
  | nil => exact ⟨rfl, rfl⟩
  | cons i rest ih =>
    have he := error_step s i.1 i.2.1 i.2.2 hs
    refine ⟨?_, ?_⟩
    · show runRole (token_role s i.1 i.2.1 i.2.2).2 rest = s
      rw [he]
      exact ih.1
    · show (token_role s i.1 i.2.1 i.2.2).1 ::
        runRoles (token_role s i.1 i.2.1 i.2.2).2 rest = _
      rw [he]
      simpa [List.replicate] using ih.2

theorem runRole_append (a b : List RInput) :
    ∀ s : PrologState, runRole s (a ++ b) = runRole (runRole s a) b := by
  induction a with
  | nil => intro s; rfl
  | cons i rest ih => intro s; exact ih _

/-- Run a bare token-kind sequence through the role recognizer with empty
spans and UTF-8; the content-model states `element6`/`element7` never inspect
the span or encoding, so this captures their behaviour on arbitrary inputs. -/
def runT (s : PrologState) (w : List XmlTok) : PrologState :=
  runRole s (w.map (fun t => (t, ([] : List Nat), Encoding.utf8)))

theorem runT_append (a b : List XmlTok) (s : PrologState) :
    runT s (a ++ b) = runT (runT s a) b := by
  simp only [runT, List.map_append]
  exact runRole_append _ _ s

theorem prologS_step (s : PrologState) (span : List Nat) (enc : Encoding)
    (h0 : s.handler ≠ Handler.prolog0) :
    (token_role s .PrologS span enc).2 = s := by
  obtain ⟨h, l, rn⟩ := s
  cases h <;> first | (exact absurd rfl h0) | rfl

theorem prologS_role (s : PrologState) (span : List Nat) (enc : Encoding)
    (hInv : StInv s) :
    (token_role s .PrologS span enc).1 = XmlRole.None
    ∨ (token_role s .PrologS span enc).1 = XmlRole.DoctypeNone
    ∨ (token_role s .PrologS span enc).1 = XmlRole.EntityNone
    ∨ (token_role s .PrologS span enc).1 = XmlRole.AttlistNone
    ∨ (token_role s .PrologS span enc).1 = XmlRole.ElementNone
    ∨ (token_role s .PrologS span enc).1 = XmlRole.NotationNone := by
  obtain ⟨h, l, rn⟩ := s
  obtain ⟨-, -, hrn⟩ := hInv
  cases h <;> (try (rcases hrn with h1 | h1 | h1 | h1 <;> cases h1)) <;>
    first
      | exact Or.inl rfl
      | exact Or.inr (Or.inl rfl)
      | exact Or.inr (Or.inr (Or.inl rfl))
      | exact Or.inr (Or.inr (Or.inr (Or.inl rfl)))
      | exact Or.inr (Or.inr (Or.inr (Or.inr (Or.inl rfl))))
      | exact Or.inr (Or.inr (Or.inr (Or.inr (Or.inr rfl))))

theorem prolog0_prologS (s : PrologState) (span : List Nat) (enc : Encoding)
    (h0 : s.handler = Handler.prolog0) :
    token_role s .PrologS span enc
      = (XmlRole.None, { s with handler := Handler.prolog1 }) := by
  obtain ⟨h, l, rn⟩ := s
  have hh : h = Handler.prolog0 := h0
  subst hh
  rfl

/-- Token kinds that stand for a content particle name (with optional
repetition suffix) inside a content model. -/
def isNameTok (t : XmlTok) : Bool :=
  match t with
  | .Name | .PrefixedName | .NameQuestion | .NameAsterisk | .NamePlus => true
  | _ => false

/-- The two sibling connector token kinds of a content-model group. -/
def isSepTok (t : XmlTok) : Bool :=
  match t with
  | .Comma | .Or => true
  | _ => false

/-- The four close-paren token kinds (bare and repetition-suffixed). -/
def isCloseTok (t : XmlTok) : Bool :=
  match t with
  | .CloseParen | .CloseParenQuestion | .CloseParenAsterisk | .CloseParenPlus => true
  | _ => false

/-- Token sequences of the XML element-content grammar (production `cp` /
`choice`-or-`seq` body, at the token level).  `CpSeq true w` means `w` is one
content particle: a name token or a parenthesized group; `CpSeq false w` means
`w` is a non-empty list of content particles joined by connector tokens.  A
valid non-mixed content model is `OpenParen`, a `CpSeq false` body, and a
close-paren token. -/
inductive CpSeq : Bool → List XmlTok → Prop where
  | name (t : XmlTok) : isNameTok t = true → CpSeq true [t]
  | group (w : List XmlTok) (c : XmlTok) : CpSeq false w → isCloseTok c = true →
      CpSeq true (XmlTok.OpenParen :: (w ++ [c]))
  | single (w : List XmlTok) : CpSeq true w → CpSeq false w
  | more (w : List XmlTok) (t : XmlTok) (w2 : List XmlTok) :
      CpSeq true w → isSepTok t = true → CpSeq false w2 → CpSeq false (w ++ t :: w2)

theorem cpseq_run6 {b : Bool} {w : List XmlTok} (hw : CpSeq b w) :
    ∀ (l : Nat) (rn : XmlRole), 1 ≤ l →
      runT { handler := .element6, level := l, role_none := rn } w
        = { handler := .element7, level := l, role_none := rn } := by
  induction hw with
  | name t ht =>
    intro l rn hl
    cases t <;> (try exact absurd ht (by decide)) <;> rfl
  | group w c hw hc ih =>
    intro l rn hl
    have h1 : runT { handler := .element6, level := l, role_none := rn }
        (XmlTok.OpenParen :: (w ++ [c]))
        = runT { handler := .element6, level := l + 1, role_none := rn } (w ++ [c]) := rfl
    rw [h1, runT_append, ih (l + 1) rn (by omega)]
    have hne : l ≠ 0 := by omega
    cases c <;> (try exact absurd hc (by decide)) <;>
      simp [runT, runRole, token_role, element7, element7close, hne]
  | single w hw ih =>
    intro l rn hl
    exact ih l rn hl
  | more w t w2 hw ht hw2 ih ih2 =>
    intro l rn hl
    rw [show w ++ t :: w2 = (w ++ [t]) ++ w2 by simp, runT_append, runT_append, ih l rn hl]
    have h2 := ih2 l rn hl
    cases t <;> first
      | exact absurd ht (by decide)
      | (rw [show runT { handler := Handler.element7, level := l, role_none := rn }
                [XmlTok.Comma]
              = { handler := Handler.element6, level := l, role_none := rn } from rfl]
         exact h2)
      | (rw [show runT { handler := Handler.element7, level := l, role_none := rn }
                [XmlTok.Or]
              = { handler := Handler.element6, level := l, role_none := rn } from rfl]
         exact h2)

theorem cpseq_run2 {b : Bool} {w : List XmlTok} (hw : CpSeq b w) :
    ∀ rn : XmlRole,
      runT { handler := .element2, level := 1, role_none := rn } w
        = { handler := .element7, level := 1, role_none := rn } := by
  induction hw with
  | name t ht =>
    intro rn
    cases t <;> (try exact absurd ht (by decide)) <;> rfl
  | group w c hw hc ih =>
    intro rn
    have h1 : runT { handler := .element2, level := 1, role_none := rn }
        (XmlTok.OpenParen :: (w ++ [c]))
        = runT { handler := .element6, level := 2, role_none := rn } (w ++ [c]) := rfl
    rw [h1, runT_append, cpseq_run6 hw 2 rn (by omega)]
    cases c <;> (try exact absurd hc (by decide)) <;> rfl
  | single w hw ih =>
    intro rn
    exact ih rn
  | more w t w2 hw ht hw2 ih ih2 =>
    intro rn
    rw [show w ++ t :: w2 = (w ++ [t]) ++ w2 by simp, runT_append, runT_append, ih rn]
    have h2 := cpseq_run6 hw2 1 rn (by omega)
    cases t <;> first
      | exact absurd ht (by decide)
      | (rw [show runT { handler := Handler.element7, level := 1, role_none := rn }
                [XmlTok.Comma]
              = { handler := Handler.element6, level := 1, role_none := rn } from rfl]
         exact h2)
      | (rw [show runT { handler := Handler.element7, level := 1, role_none := rn }
                [XmlTok.Or]
              = { handler := Handler.element6, level := 1, role_none := rn } from rfl]
         exact h2)

/-- A byte that may begin a name inside a tag (`BT_NMSTRT` or `BT_HEX`, the
classes `scan_lt` and `scan_atts` accept as name starts). -/
def startByteOk (b : Nat) : Bool :=
  byte_type b == BT.nmstrt || byte_type b == BT.hex

/-- A byte the `scan_start_tag` loop passes over without acting: not
whitespace, CR, LF, `>` or `/`. -/
def tagNameByteOk (b : Nat) : Bool :=
  !(byte_type b == BT.s || byte_type b == BT.cr || byte_type b == BT.lf ||
    byte_type b == BT.gt || byte_type b == BT.sol)

/-- A byte the inner attribute loop of `scan_atts` consumes: neither `BT_S`
nor `BT_GT`. -/
def attByteOk (b : Nat) : Bool :=
  !(byte_type b == BT.s || byte_type b == BT.gt)

/-- A well-formed tag name for the scanner: non-empty, name-start head, and a
tail the start-tag loop passes over. -/
def nameOk : List Nat → Bool
  | [] => false
  | b :: rest => startByteOk b && rest.all tagNameByteOk

/-- One attribute specification chunk as the simplified attribute scanner
consumes it: non-empty, name-start head, and no whitespace or `>` inside. -/
def attSegOk : List Nat → Bool
  | [] => false
  | b :: rest => startByteOk b && rest.all attByteOk

/-- Attribute chunks laid out in the input, each followed by one space. -/
def attsFlat (segs : List (List Nat)) : List Nat :=
  segs.foldr (fun a acc => a ++ 32 :: acc) []

theorem scan_start_tag_skip (l : List Nat) (r : List Nat)
    (hl : l.all tagNameByteOk = true) :
    scan_start_tag (l ++ 32 :: r) = scan_atts r := by
  induction l with
  | nil => rfl
  | cons b bs ih =>
    simp only [List.all_cons, Bool.and_eq_true] at hl
    obtain ⟨hb, hbs⟩ := hl
    cases hbt : byte_type b <;>
      first
        | (show scan_start_tag (b :: (bs ++ 32 :: r)) = scan_atts r
           simp only [scan_start_tag]
           rw [hbt]
           exact ih hbs)
        | simp [tagNameByteOk, hbt] at hb

theorem atts_inner_skip (l : List Nat) (r : List Nat)
    (hl : l.all attByteOk = true) :
    scan_atts_go true (l ++ 32 :: r) = scan_atts_go false r := by
  induction l with
  | nil => rfl
  | cons b bs ih =>
    simp only [List.all_cons, Bool.and_eq_true] at hl
    obtain ⟨hb, hbs⟩ := hl
    cases hbt : byte_type b <;>
      first
        | (show scan_atts_go true (b :: (bs ++ 32 :: r)) = scan_atts_go false r
           simp only [scan_atts_go]
           rw [hbt]
           exact ih hbs)
        | simp [attByteOk, hbt] at hb

theorem scan_atts_flat (segs : List (List Nat)) (r : List Nat)
    (hs : segs.all attSegOk = true) :
    scan_atts_go false (attsFlat segs ++ 47 :: 62 :: r)
      = (XmlTok.EmptyElementWithAtts, r) := by
  induction segs with
  | nil => rfl
  | cons a segs ih =>
    simp only [List.all_cons, Bool.and_eq_true] at hs
    obtain ⟨ha, hsegs⟩ := hs
    cases a with
    | nil => simp [attSegOk] at ha
    | cons b bs =>
      simp only [attSegOk, Bool.and_eq_true] at ha
      obtain ⟨hb, hbs⟩ := ha
      have hshape : attsFlat ((b :: bs) :: segs) ++ 47 :: 62 :: r
          = b :: (bs ++ 32 :: (attsFlat segs ++ 47 :: 62 :: r)) := by
        simp [attsFlat]
      rw [hshape]
      have hbt : byte_type b = BT.nmstrt ∨ byte_type b = BT.hex := by
        rcases (Bool.or_eq_true _ _).mp hb with h | h
        · exact Or.inl (beq_iff_eq.mp h)
        · exact Or.inr (beq_iff_eq.mp h)
      rcases hbt with hbt | hbt <;>
        · simp only [scan_atts_go]
          rw [hbt, atts_inner_skip bs _ hbs]
          exact ih hsegs

/-- Claim C2: the scanner breaks the prefix/suffix property in the `]` branch.
Evaluation at the failing input `]]ab` (bytes `[93, 93, 97, 98]`): the source
returns `DataChars` with remainder `[97]`, obtained by dropping the last byte
of the post-`]]` slice (`p = &p[..p.len() - 1]`), and `[97]` is not a suffix of
the input, so the returned remainder cannot be the tail of any token prefix. -/
theorem c2_rsqb_remainder_not_suffix :
    content_tok [93, 93, 97, 98] = some (XmlTok.DataChars, [97])
    ∧ List.IsSuffix [97] [93, 93, 97, 98] = False := by
  constructor
  · decide
  · exact eq_false (by decide)

/-- Claim C5, counterexample: the well-formed empty-element tag `<a x="1"/>`
(one attribute, no whitespace before `/>`) is scanned as `StartTagWithAtts`,
not `EmptyElementWithAtts`: the simplified inner attribute loop consumes the
`/` because it only stops on whitespace or `>`. -/
theorem c5_counterexample :
    content_tok [60, 97, 32, 120, 61, 34, 49, 34, 47, 62]
      = some (XmlTok.StartTagWithAtts, [])
    ∧ XmlTok.StartTagWithAtts ≠ XmlTok.EmptyElementWithAtts := by decide

/-- Claim C5, amended: for every empty-element tag in which whitespace
separates the attributes from `/>` — a `<`, a name, whitespace, one or more
attribute chunks each followed by whitespace, then `/>` — `content_tok`
returns `EmptyElementWithAtts` with the remainder just past the `>`; and
whenever the attribute scanner's outer loop reaches a `/` that is not
immediately followed by `>` (or is the last byte), it returns `Invalid`. -/
theorem c5_empty_element_amended :
    (∀ (nm : List Nat) (segs : List (List Nat)) (rest : List Nat),
      nameOk nm = true → segs ≠ [] → segs.all attSegOk = true →
      content_tok (60 :: (nm ++ 32 :: (attsFlat segs ++ 47 :: 62 :: rest)))
        = some (XmlTok.EmptyElementWithAtts, rest))
    ∧ (∀ (c : Nat) (q : List Nat), c ≠ 62 →
        scan_atts (47 :: c :: q) = (XmlTok.Invalid, c :: q))
    ∧ scan_atts [47] = (XmlTok.Invalid, []) := by
  refine ⟨?_, ?_, ?_⟩
  · intro nm segs rest hnm _hne hsegs
    cases nm with
    | nil => simp [nameOk] at hnm
    | cons b bs =>
      simp only [nameOk, Bool.and_eq_true] at hnm
      obtain ⟨hb, hbs⟩ := hnm
      have hbt : byte_type b = BT.nmstrt ∨ byte_type b = BT.hex := by
        rcases (Bool.or_eq_true _ _).mp hb with h | h
        · exact Or.inl (beq_iff_eq.mp h)
        · exact Or.inr (beq_iff_eq.mp h)
      rcases hbt with hbt | hbt <;>
        · show scan_lt (b :: (bs ++ 32 :: (attsFlat segs ++ 47 :: 62 :: rest))) = _
          simp only [scan_lt]
          rw [hbt, scan_start_tag_skip bs _ hbs]
          show some (scan_atts_go false (attsFlat segs ++ 47 :: 62 :: rest)) = _
          rw [scan_atts_flat segs rest hsegs]
  · intro c q hc
    show scan_atts_go false (47 :: c :: q) = _
    simp only [scan_atts_go]
    rw [show byte_type 47 = BT.sol from rfl]
    rw [if_neg hc]
  · rfl

/-- Claim C5, witness: the amended theorem at `<a x="1" />` and at a `/`
followed by `b` inside attribute scanning. -/
theorem c5_witness :
    content_tok [60, 97, 32, 120, 61, 34, 49, 34, 32, 47, 62]
      = some (XmlTok.EmptyElementWithAtts, [])
    ∧ scan_atts [47, 98, 62] = (XmlTok.Invalid, [98, 62]) := by
  constructor
  · exact c5_empty_element_amended.1 [97] [[120, 61, 34, 49, 34]] []
      (by decide) (by decide) (by decide)
  · exact c5_empty_element_amended.2.1 98 [62] (by decide)

/-- Claim C8, counterexample: on input `<![Z` the byte `Z` already deviates
from the committed `CDATA[` literal, yet `content_tok` returns `Partial`
(named `Incomplete` here), not `Invalid`, because `scan_cdata_section` checks
the length before comparing any bytes. -/
theorem c8_counterexample :
    content_tok [60, 33, 91, 90] = some (XmlTok.Incomplete, [90])
    ∧ XmlTok.Incomplete ≠ XmlTok.Invalid := by decide

/-- Claim C8, amended: for every input beginning `<![`, `content_tok` returns
`Partial` whenever fewer than six bytes follow `<![` (even if a deviating byte
has already appeared), `Invalid` when at least six bytes follow and they are
not exactly `CDATA[`, and `CdataSectOpen` past the `[` when they are. -/
theorem c8_cdata_open_amended (rest : List Nat) :
    (rest.length < 6 → content_tok (60 :: 33 :: 91 :: rest) = some (XmlTok.Incomplete, rest))
    ∧ (6 ≤ rest.length → rest.take 6 ≠ cdataOpenBytes →
        content_tok (60 :: 33 :: 91 :: rest) = some (XmlTok.Invalid, rest))
    ∧ (rest.take 6 = cdataOpenBytes →
        content_tok (60 :: 33 :: 91 :: rest) = some (XmlTok.CdataSectOpen, rest.drop 6)) := by
  have hred : content_tok (60 :: 33 :: 91 :: rest) = some (scan_cdata_section rest) := rfl
  refine ⟨?_, ?_, ?_⟩
  · intro h1
    rw [hred, scan_cdata_section, if_pos (by simpa [cdataOpenBytes] using h1)]
  · intro h1 h2
    rw [hred, scan_cdata_section, if_neg (by simp [cdataOpenBytes]; omega),
      if_neg (by simpa [cdataOpenBytes] using h2)]
  · intro h1
    have hlen : 6 ≤ rest.length := by
      have hl2 := congrArg List.length h1
      simp [cdataOpenBytes, List.length_take] at hl2
      omega
    rw [hred, scan_cdata_section, if_neg (by simp [cdataOpenBytes]; omega),
      if_pos (by simpa [cdataOpenBytes] using h1)]
    simp [cdataOpenBytes]

/-- Claim C8, witness: the amended theorem at `<![Z` (short buffer, Partial),
at `<![XDATA[...` (six deviating bytes, Invalid) and at `<![CDATA[x`
(CdataSectOpen past the bracket). -/
theorem c8_witness :
    content_tok [60, 33, 91, 90] = some (XmlTok.Incomplete, [90])
    ∧ content_tok [60, 33, 91, 88, 68, 65, 84, 65, 91] = some (XmlTok.Invalid, [88, 68, 65, 84, 65, 91])
    ∧ content_tok [60, 33, 91, 67, 68, 65, 84, 65, 91, 120]
        = some (XmlTok.CdataSectOpen, [120]) := by
  refine ⟨?_, ?_, ?_⟩
  · exact (c8_cdata_open_amended [90]).1 (by decide)
  · exact (c8_cdata_open_amended [88, 68, 65, 84, 65, 91]).2.1 (by decide) (by decide)
  · exact (c8_cdata_open_amended [67, 68, 65, 84, 65, 91, 120]).2.2 (by decide)

/-- Claim C9: the character-reference scanners accept an empty digit string:
`&#;` and `&#x;` both return `CharRef` with the remainder just past the `;`;
no minimum of one (hex) digit is enforced. -/
theorem c9_char_ref_empty_digits :
    content_tok [38, 35, 59] = some (XmlTok.CharRef, [])
    ∧ content_tok [38, 35, 120, 59] = some (XmlTok.CharRef, []) := by decide

/-- Driver inputs that lead from `PrologState::new()` to `element1`: the
tokens of `<!DOCTYPE x [<!ELEMENT a` with their byte spans, in UTF-8. -/
def c1Pre : List RInput :=
  [(XmlTok.DeclOpen, [60, 33, 68, 79, 67, 84, 89, 80, 69], Encoding.utf8),
   (XmlTok.Name, [120], Encoding.utf8),
   (XmlTok.OpenBracket, [91], Encoding.utf8),
   (XmlTok.DeclOpen, [60, 33, 69, 76, 69, 77, 69, 78, 84], Encoding.utf8),
   (XmlTok.Name, [97], Encoding.utf8)]

theorem c1_pre_run : runRole PrologState.new c1Pre
    = { handler := .element1, level := 0, role_none := XmlRole.None } := by decide

/-- Driver inputs for the full mixed-content declaration
`<!DOCTYPE x [<!ELEMENT a (#PCDATA)>`. -/
def c1MixedIns : List RInput :=
  c1Pre ++
    [(XmlTok.OpenParen, [40], Encoding.utf8),
     (XmlTok.PoundName, [35, 80, 67, 68, 65, 84, 65], Encoding.utf8),
     (XmlTok.CloseParen, [41], Encoding.utf8),
     (XmlTok.DeclClose, [62], Encoding.utf8)]

/-- Claim C1, counterexample: after the valid mixed-content declaration
`<!ELEMENT a (#PCDATA)>` (inside a DOCTYPE internal subset, starting from
`PrologState::new()`), the level counter is 1, not 0 — `element3` moves to
`decl_close` without decrementing — and the handler is `internal_subset`,
outside every content-model state, so the claimed iff fails in both parts. -/
theorem c1_counterexample :
    runRole PrologState.new c1MixedIns
      = { handler := Handler.internal_subset, level := 1, role_none := XmlRole.ElementNone }
    ∧ (runRole PrologState.new c1MixedIns).level ≠ 0 := by decide

/-- Claim C1, amended: at the end of a valid ELEMENT declaration whose content
model is parenthesized element content (not mixed `#PCDATA` content) the
nesting level is zero and the handler has returned to `internal_subset`; and
in every reachable state, a handler inside a content-model state
(`element2`..`element7`) has level at least 1 — so level zero implies the
handler is outside every content-model state, though the converse fails after
mixed-content declarations. -/
theorem c1_nesting_balance_amended :
    (∀ (w : List XmlTok) (c : XmlTok), CpSeq false w → isCloseTok c = true →
      runRole PrologState.new
          (c1Pre ++ (XmlTok.OpenParen, ([] : List Nat), Encoding.utf8) ::
            ((w.map fun t => (t, ([] : List Nat), Encoding.utf8)) ++
              [(c, [], Encoding.utf8), (XmlTok.DeclClose, [], Encoding.utf8)]))
        = { handler := Handler.internal_subset, level := 0,
            role_none := XmlRole.ElementNone })
    ∧ (∀ ins : List RInput,
        ((runRole PrologState.new ins).handler = Handler.element2 ∨
         (runRole PrologState.new ins).handler = Handler.element3 ∨
         (runRole PrologState.new ins).handler = Handler.element4 ∨
         (runRole PrologState.new ins).handler = Handler.element5 ∨
         (runRole PrologState.new ins).handler = Handler.element6 ∨
         (runRole PrologState.new ins).handler = Handler.element7) →
        1 ≤ (runRole PrologState.new ins).level) := by
  constructor
  · intro w c hw hc
    rw [runRole_append, c1_pre_run]
    show runRole { handler := Handler.element2, level := 1, role_none := XmlRole.None }
        ((w.map fun t => (t, ([] : List Nat), Encoding.utf8)) ++
          [(c, [], Encoding.utf8), (XmlTok.DeclClose, [], Encoding.utf8)]) = _
    rw [runRole_append]
    have hrw : runRole { handler := Handler.element2, level := 1, role_none := XmlRole.None }
        (w.map fun t => (t, ([] : List Nat), Encoding.utf8))
        = { handler := Handler.element7, level := 1, role_none := XmlRole.None } :=
      cpseq_run2 hw XmlRole.None
    rw [hrw]
    cases c <;> (try exact absurd hc (by decide)) <;> rfl
  · intro ins h
    obtain ⟨hA, hB, -⟩ := reach_inv ins
    rcases h with h | h | h | h | h | h
    · exact (hA (Or.inl h)).ge
    · exact (hA (Or.inr (Or.inl h))).ge
    · exact (hA (Or.inr (Or.inr (Or.inl h)))).ge
    · exact (hA (Or.inr (Or.inr (Or.inr h)))).ge
    · exact hB (Or.inl h)
    · exact hB (Or.inr h)

/-- Claim C1, witness: the amended theorem at the content model `(b)` — token
list `OpenParen, Name, CloseParen, DeclClose` after the `c1Pre` prefix — and
at a reachable `element7` state. -/
theorem c1_witness :
    runRole PrologState.new
        (c1Pre ++ (XmlTok.OpenParen, ([] : List Nat), Encoding.utf8) ::
          (([(XmlTok.Name, ([] : List Nat), Encoding.utf8)]) ++
            [(XmlTok.CloseParen, [], Encoding.utf8), (XmlTok.DeclClose, [], Encoding.utf8)]))
      = { handler := Handler.internal_subset, level := 0, role_none := XmlRole.ElementNone }
    ∧ 1 ≤ (runRole PrologState.new
          (c1Pre ++ [(XmlTok.OpenParen, ([] : List Nat), Encoding.utf8),
            (XmlTok.NameQuestion, [], Encoding.utf8)])).level := by
  constructor
  · exact c1_nesting_balance_amended.1 [XmlTok.Name] XmlTok.CloseParen
      (CpSeq.single _ (CpSeq.name _ rfl)) rfl
  · exact c1_nesting_balance_amended.2 _ (by decide)

/-- Claim C3, counterexample: in the initial state `prolog0`, a `PrologS`
whitespace token does advance the handler selector, to `prolog1` (returning
role `None`). -/
theorem c3_counterexample :
    PrologState.new.handler = Handler.prolog0
    ∧ (token_role PrologState.new XmlTok.PrologS [32] Encoding.utf8).2.handler
        = Handler.prolog1
    ∧ Handler.prolog1 ≠ Handler.prolog0 := by decide

/-- Claim C3, amended: in every reachable state other than `prolog0`, a
`PrologS` token leaves the whole role-parser state unchanged and returns
either `None` or one of the context roles `DoctypeNone`, `EntityNone`,
`AttlistNone`, `ElementNone`, `NotationNone`; in `prolog0` it returns `None`
but advances the handler to `prolog1` (all other fields unchanged). -/
theorem c3_whitespace_frame_amended :
    ∀ (ins : List RInput) (span : List Nat) (enc : Encoding),
      ((runRole PrologState.new ins).handler ≠ Handler.prolog0 →
        (token_role (runRole PrologState.new ins) .PrologS span enc).2
            = runRole PrologState.new ins
        ∧ ((token_role (runRole PrologState.new ins) .PrologS span enc).1 = XmlRole.None
           ∨ (token_role (runRole PrologState.new ins) .PrologS span enc).1
               = XmlRole.DoctypeNone
           ∨ (token_role (runRole PrologState.new ins) .PrologS span enc).1
               = XmlRole.EntityNone
           ∨ (token_role (runRole PrologState.new ins) .PrologS span enc).1
               = XmlRole.AttlistNone
           ∨ (token_role (runRole PrologState.new ins) .PrologS span enc).1
               = XmlRole.ElementNone
           ∨ (token_role (runRole PrologState.new ins) .PrologS span enc).1
               = XmlRole.NotationNone))
      ∧ ((runRole PrologState.new ins).handler = Handler.prolog0 →
          token_role (runRole PrologState.new ins) .PrologS span enc
            = (XmlRole.None,
               { runRole PrologState.new ins with handler := Handler.prolog1 })) := by
  intro ins span enc
  constructor
  · intro h0
    exact ⟨prologS_step _ span enc h0, prologS_role _ span enc (reach_inv ins)⟩
  · intro h0
    exact prolog0_prologS _ span enc h0

/-- Claim C3, witness: the amended theorem at the initial state (handler
`prolog0`) and at the state after one whitespace token (handler `prolog1`). -/
theorem c3_witness :
    token_role (runRole PrologState.new []) XmlTok.PrologS [32] Encoding.utf8
      = (XmlRole.None, { runRole PrologState.new [] with handler := Handler.prolog1 })
    ∧ (token_role (runRole PrologState.new [(XmlTok.PrologS, [32], Encoding.utf8)])
          XmlTok.PrologS [32] Encoding.utf8).2
        = runRole PrologState.new [(XmlTok.PrologS, [32], Encoding.utf8)] := by
  constructor
  · exact (c3_whitespace_frame_amended [] [32] Encoding.utf8).2 rfl
  · exact ((c3_whitespace_frame_amended [(XmlTok.PrologS, [32], Encoding.utf8)] [32]
      Encoding.utf8).1 (by decide)).1

/-- The internal-subset start state for the scenario runs. -/
def c4Start : PrologState :=
  { handler := Handler.internal_subset, level := 0, role_none := XmlRole.None }

/-- Driver inputs for the tokens of `<!ELEMENT a (b,c?)>`, whitespace
included. -/
def c4InsWs : List RInput :=
  [(XmlTok.DeclOpen, [60, 33, 69, 76, 69, 77, 69, 78, 84], Encoding.utf8),
   (XmlTok.PrologS, [32], Encoding.utf8),
   (XmlTok.Name, [97], Encoding.utf8),
   (XmlTok.PrologS, [32], Encoding.utf8),
   (XmlTok.OpenParen, [40], Encoding.utf8),
   (XmlTok.Name, [98], Encoding.utf8),
   (XmlTok.Comma, [44], Encoding.utf8),
   (XmlTok.NameQuestion, [99, 63], Encoding.utf8),
   (XmlTok.CloseParen, [41], Encoding.utf8),
   (XmlTok.DeclClose, [62], Encoding.utf8)]

/-- Driver inputs for the tokens of `<!ELEMENT a (b,c?)>` with the whitespace
tokens left out. -/
def c4InsNoWs : List RInput :=
  [(XmlTok.DeclOpen, [60, 33, 69, 76, 69, 77, 69, 78, 84], Encoding.utf8),
   (XmlTok.Name, [97], Encoding.utf8),
   (XmlTok.OpenParen, [40], Encoding.utf8),
   (XmlTok.Name, [98], Encoding.utf8),
   (XmlTok.Comma, [44], Encoding.utf8),
   (XmlTok.NameQuestion, [99, 63], Encoding.utf8),
   (XmlTok.CloseParen, [41], Encoding.utf8),
   (XmlTok.DeclClose, [62], Encoding.utf8)]

/-- The role sequence claim C4 expects for `<!ELEMENT a (b,c?)>`. -/
def c4ClaimedRoles : List XmlRole :=
  [.ElementNone, .ElementName, .GroupOpen, .ContentElement, .ContentElementOpt,
   .GroupClose, .ElementNone]

/-- Claim C4, counterexample: feeding the tokens of `<!ELEMENT a (b,c?)>` from
the internal-subset state yields an extra `GroupSequence` role for the comma,
so the emitted sequence differs from the claimed one both with the whitespace
tokens dropped and with only `None` results filtered out (the whitespace
results here are `ElementNone`, not `None`). -/
theorem c4_counterexample :
    runRoles c4Start c4InsNoWs
      = [.ElementNone, .ElementName, .GroupOpen, .ContentElement, .GroupSequence,
         .ContentElementOpt, .GroupClose, .ElementNone]
    ∧ runRoles c4Start c4InsNoWs ≠ c4ClaimedRoles
    ∧ (runRoles c4Start c4InsWs).filter (fun r => r != XmlRole.None)
        ≠ c4ClaimedRoles := by decide

/-- Claim C4, amended: the role sequence for `<!ELEMENT a (b,c?)>` is
`ElementNone, ElementName, GroupOpen, ContentElement, GroupSequence,
ContentElementOpt, GroupClose, ElementNone` once the results of the
whitespace tokens (which are `ElementNone`, not `None`) are dropped; with the
whitespace tokens included the two extra `ElementNone` results appear after
the first `ElementNone` and after `ElementName`. -/
theorem c4_scenario5_amended :
    runRoles c4Start c4InsNoWs
      = [.ElementNone, .ElementName, .GroupOpen, .ContentElement, .GroupSequence,
         .ContentElementOpt, .GroupClose, .ElementNone]
    ∧ runRoles c4Start c4InsWs
      = [.ElementNone, .ElementNone, .ElementName, .ElementNone, .GroupOpen,
         .ContentElement, .GroupSequence, .ContentElementOpt, .GroupClose,
         .ElementNone] := by decide

/-- The i-th attribute-type keyword of the `TYPES` array in `attlist2`. -/
def attTypeKwAt : Fin 8 → List Nat
  | 0 => kwCDATA
  | 1 => kwID
  | 2 => kwIDREF
  | 3 => kwIDREFS
  | 4 => kwENTITY
  | 5 => kwENTITIES
  | 6 => kwNMTOKEN
  | 7 => kwNMTOKENS

/-- The i-th attribute-type role, in the claim's order. -/
def attTypeRoleAt : Fin 8 → XmlRole
  | 0 => .AttributeTypeCdata
  | 1 => .AttributeTypeId
  | 2 => .AttributeTypeIdref
  | 3 => .AttributeTypeIdrefs
  | 4 => .AttributeTypeEntity
  | 5 => .AttributeTypeEntities
  | 6 => .AttributeTypeNmtoken
  | 7 => .AttributeTypeNmtokens

/-- Claim C6: in `attlist2`, for every encoding and every index i in 0..8, a
`Name` token whose span matches the i-th keyword of `{CDATA, ID, IDREF,
IDREFS, ENTITY, ENTITIES, NMTOKEN, NMTOKENS}` produces the i-th role of
`{AttributeTypeCdata, ..., AttributeTypeNmtokens}` and moves the handler to
the default-specification state `attlist8`; and that i-th role's enumeration
ordinal is exactly `AttributeTypeCdata + i`, matching the source's
`transmute(AttributeTypeCdata as i32 + i)`. -/
theorem c6_attlist_type_indexing :
    (∀ (s : PrologState) (enc : Encoding) (i : Fin 8) (span : List Nat),
      s.handler = Handler.attlist2 →
      xmlNameMatchesAscii enc span (attTypeKwAt i) = true →
      token_role s XmlTok.Name span enc
        = (attTypeRoleAt i, { s with handler := Handler.attlist8 }))
    ∧ (∀ i : Fin 8, roleOrdinal (attTypeRoleAt i)
        = roleOrdinal XmlRole.AttributeTypeCdata + (i.val : Int)) := by
  constructor
  · intro s enc i span hh hm
    obtain ⟨h, l, rn⟩ := s
    have hh2 : h = Handler.attlist2 := hh
    subst hh2
    have hm2 : span = encodeAscii enc (attTypeKwAt i) := by
      simpa [xmlNameMatchesAscii] using hm
    subst hm2
    fin_cases i <;> cases enc <;> rfl
  · intro i
    fin_cases i <;> rfl

/-- Claim C6, witness: the keyword `IDREF` (index 2) in `attlist2` under
UTF-8 yields `AttributeTypeIdref` and handler `attlist8`. -/
theorem c6_witness :
    token_role { handler := Handler.attlist2, level := 0, role_none := XmlRole.None }
        XmlTok.Name [73, 68, 82, 69, 70] Encoding.utf8
      = (XmlRole.AttributeTypeIdref,
         { handler := Handler.attlist8, level := 0, role_none := XmlRole.None }) :=
  c6_attlist_type_indexing.1 _ Encoding.utf8 2 [73, 68, 82, 69, 70] rfl (by decide)

/-- Claim C7: sink absorption — whenever `token_role` returns `Error` from a
reachable state, the handler has been rewritten to the sink state `error`,
and every subsequent call, for every token kind, span and encoding, returns
`None` and leaves the state (hence the handler) unchanged. -/
theorem c7_sink_absorption :
    ∀ (ins : List RInput) (tok : XmlTok) (span : List Nat) (enc : Encoding),
      (token_role (runRole PrologState.new ins) tok span enc).1 = XmlRole.Error →
      (token_role (runRole PrologState.new ins) tok span enc).2.handler = Handler.error
      ∧ ∀ more : List RInput,
          runRole (token_role (runRole PrologState.new ins) tok span enc).2 more
            = (token_role (runRole PrologState.new ins) tok span enc).2
          ∧ runRoles (token_role (runRole PrologState.new ins) tok span enc).2 more
            = List.replicate more.length XmlRole.None := by
  intro ins tok span enc hE
  have hInv := reach_inv ins
  have hrn : (runRole PrologState.new ins).role_none ≠ XmlRole.Error := by
    rcases hInv.2.2 with h | h | h | h <;> simp [h]
  have h2 := err_step _ tok span enc hrn hE
  rw [h2]
  exact ⟨rfl, fun more => error_run _ rfl more⟩

/-- Claim C7, witness: a `DeclClose` token in the initial state produces
`Error`; afterwards a further `Name` token leaves the state unchanged. -/
theorem c7_witness :
    (token_role (runRole PrologState.new []) XmlTok.DeclClose [] Encoding.utf8).2.handler
      = Handler.error
    ∧ runRole (token_role (runRole PrologState.new []) XmlTok.DeclClose [] Encoding.utf8).2
        [(XmlTok.Name, [97], Encoding.utf8)]
      = (token_role (runRole PrologState.new []) XmlTok.DeclClose [] Encoding.utf8).2 := by
  have h := c7_sink_absorption [] XmlTok.DeclClose [] Encoding.utf8 (by decide)
  exact ⟨h.1, (h.2 [(XmlTok.Name, [97], Encoding.utf8)]).1⟩

/-- Claim C10: in every state reachable from `PrologState::new()`, if the
handler is `element6` (which increments the level on `(`) or `element7`
(which runs `state.level -= 1` on the four close-paren tokens), the level is
at least 1, so the unsigned decrement never underflows. -/
theorem c10_no_level_underflow :
    ∀ ins : List RInput,
      ((runRole PrologState.new ins).handler = Handler.element6 ∨
       (runRole PrologState.new ins).handler = Handler.element7) →
      1 ≤ (runRole PrologState.new ins).level := by
  intro ins h
  exact (reach_inv ins).2.1 h

/-- Claim C10, witness: the reachable state after `<!DOCTYPE x [<!ELEMENT a (b*`
has handler `element7` and level 1. -/
theorem c10_witness :
    1 ≤ (runRole PrologState.new
          (c1Pre ++ [(XmlTok.OpenParen, ([] : List Nat), Encoding.utf8),
            (XmlTok.NameAsterisk, [], Encoding.utf8)])).level :=
  c10_no_level_underflow _ (by decide)

end XmlCore
